import Mathlib

/-!
Shallow embedding of the process-supervisor core of `lab_heartbeat`
(`process_manager/core/{registry,controller,monitor,heartbeat}.py`).

The durable SQLite store is modelled as a list of rows in insertion order
(`Store`); timestamps are modelled as natural numbers (seconds), and the
wall-clock is passed explicitly to every operation that reads it.
OS effects (child liveness, exceptions while signalling a child) are
passed in as explicit oracles.
-/

namespace LabHeartbeat

/-- The seven lifecycle states of `ProcessState` in `registry.py`. -/
inductive ProcState where
  | registered
  | starting
  | running
  | stopping
  | stopped
  | failed
  | crashed
deriving DecidableEq, Repr

/-- The five values of the `ProcessType` enum in `registry.py`. -/
inductive ProcType where
  | python
  | nodejs
  | shell
  | docker
  | custom
deriving DecidableEq, Repr

/-- The `ProcessConfig` dataclass from `registry.py`. -/
structure ProcessConfig where
  name : String
  command : String
  type : ProcType
  workdir : String
  env : List (String × String)
  ports : List Nat
  restart_policy : String
  max_retries : Nat
  health_check_endpoint : Option String
  health_check_interval : Nat
  dependencies : List String
deriving DecidableEq, Repr

/-- One row of the `processes` table (the durable form of `ProcessInfo`). -/
structure ProcessRecord where
  id : String
  name : String
  config : ProcessConfig
  state : ProcState
  pid : Option Nat
  started_at : Option Nat
  stopped_at : Option Nat
  restart_count : Nat
  last_heartbeat : Option Nat
  error_message : Option String
  created_at : Nat
  updated_at : Nat
deriving DecidableEq, Repr

/-- The durable store: rows of the `processes` table in insertion order. -/
abbrev Store := List ProcessRecord

/-- Model of `ProcessRegistry.get_process`: first row whose `id` matches. -/
def get_process : Store → String → Option ProcessRecord
  | [], _ => none
  | r :: tl, id => if r.id = id then some r else get_process tl id

/-- A `datetime` value as used by `datetime.now().strftime` in `register`. -/
structure Timestamp6 where
  year : Nat
  month : Nat
  day : Nat
  hour : Nat
  minute : Nat
  second : Nat
deriving DecidableEq, Repr

/-- Zero-pad the decimal form of `n` to width `w` (as `strftime` does). -/
def padZeros (w n : Nat) : String :=
  let s := toString n
  String.mk (List.replicate (w - s.length) '0') ++ s

/-- Format used for minted ids: `strftime` with compact year-month-day, an underscore, then hour-minute-second, as in `register`. -/
def fmtCompact (t : Timestamp6) : String :=
  padZeros 4 t.year ++ padZeros 2 t.month ++ padZeros 2 t.day ++ "_" ++
    padZeros 2 t.hour ++ padZeros 2 t.minute ++ padZeros 2 t.second

/-- Error raised by `ProcessRegistry.register` on a duplicate name
(`ValueError` in the source). -/
inductive RegError where
  | nameConflict (name : String)
deriving DecidableEq, Repr

/-- The row inserted by `ProcessRegistry.register`: only `id`, `name`,
`config`, `state` are supplied; the other columns take the schema
defaults (`restart_count` 0, NULLs, `created_at`/`updated_at` now). -/
def freshRecord (id : String) (config : ProcessConfig) (createdAt : Nat) : ProcessRecord :=
  { id := id
    name := config.name
    config := config
    state := ProcState.registered
    pid := none
    started_at := none
    stopped_at := none
    restart_count := 0
    last_heartbeat := none
    error_message := none
    created_at := createdAt
    updated_at := createdAt }

/-- Model of `ProcessRegistry.register`: reject a duplicate name, otherwise insert a
fresh REGISTERED row whose id is `name ++ "_" ++ strftime-compact(now)`. -/
def register (store : Store) (config : ProcessConfig) (now : Timestamp6) (nowEpoch : Nat) :
    Except RegError (Store × String) :=
  if store.any (fun r => r.name = config.name) then
    Except.error (RegError.nameConflict config.name)
  else
    let pid := config.name ++ "_" ++ fmtCompact now
    Except.ok (store ++ [freshRecord pid config nowEpoch], pid)

/-- The SET clause of `ProcessRegistry.update_state` applied to one row.
Assignment order follows the SQL text; a later duplicate assignment to
`pid` overrides an earlier one, as in SQLite. -/
def applyUpdateState (st : ProcState) (pidArg : Option Nat) (err : Option String)
    (now : Nat) (r : ProcessRecord) : ProcessRecord :=
  let r1 := { r with state := st, updated_at := now }
  let r2 :=
    match pidArg with
    | some p => { r1 with pid := some p }
    | none => r1
  let r3 :=
    if st = ProcState.running then
      { r2 with started_at := some now, stopped_at := none }
    else if st = ProcState.stopped ∨ st = ProcState.failed ∨ st = ProcState.crashed then
      { r2 with stopped_at := some now, pid := none }
    else r2
  match err with
  | some e => if e ≠ "" then { r3 with error_message := some e } else r3
  | none => r3

/-- Model of `ProcessRegistry.update_state`: UPDATE ... WHERE id matches. -/
def update_state (store : Store) (id : String) (st : ProcState) (pidArg : Option Nat)
    (err : Option String) (now : Nat) : Store :=
  store.map (fun r => if r.id = id then applyUpdateState st pidArg err now r else r)

/-- Model of `ProcessRegistry.update_heartbeat`: only `last_heartbeat` is set. -/
def update_heartbeat (store : Store) (id : String) (now : Nat) : Store :=
  store.map (fun r => if r.id = id then { r with last_heartbeat := some now } else r)

/-- Model of `ProcessRegistry.increment_restart_count`. -/
def increment_restart_count (store : Store) (id : String) : Store :=
  store.map (fun r => if r.id = id then { r with restart_count := r.restart_count + 1 } else r)

/-- The WHERE clause of `cleanup_stale_processes`: state RUNNING, a
non-NULL `last_heartbeat`, and `last_heartbeat + timeout < now`. -/
def staleCond (timeout now : Nat) (r : ProcessRecord) : Bool :=
  decide (r.state = ProcState.running) &&
    (match r.last_heartbeat with
     | some h => decide (h + timeout < now)
     | none => false)

/-- Model of `ProcessRegistry.cleanup_stale_processes`: bulk UPDATE setting only
`state` and `error_message` on the stale rows. -/
def cleanup_stale_processes (store : Store) (timeout now : Nat) : Store :=
  store.map (fun r =>
    if staleCond timeout now r then
      { r with state := ProcState.crashed, error_message := some "Process heartbeat timeout" }
    else r)

/-- Model of `ProcessController._should_restart`, branching on the policy
string in source order (never, always, on-failure, unless-stopped). -/
def should_restart (policy : String) (exit_code : Int) (attempt max_retries : Nat) : Bool :=
  if policy = "never" then false
  else if policy = "always" then decide (attempt < max_retries)
  else if policy = "on-failure" then decide (exit_code ≠ 0) && decide (attempt < max_retries)
  else if policy = "unless-stopped" then decide (exit_code ≠ 0) && decide (attempt < max_retries)
  else false

/-- Result of `ProcessController._prepare_command`: either an argv list
(spawned with shell=False) or a raw string (spawned with shell=True). -/
inductive PreparedCommand where
  | argv (args : List String)
  | shellLine (line : String)
deriving DecidableEq, Repr

/-- Whether `Popen` receives shell=True for this prepared command
(shell=False if isinstance(cmd, list) else True). -/
def usesShell : PreparedCommand → Bool
  | PreparedCommand.argv _ => false
  | PreparedCommand.shellLine _ => true

/-- Model of `os.path.basename`: the part of the path after the last
slash. -/
def basename (p : String) : String :=
  (p.splitOn "/").getLastD p

/-- Model of Python str.split() with no argument: split on runs of
whitespace, discarding empty tokens. -/
def splitTokens (s : String) : List String :=
  (s.split Char.isWhitespace).filter (fun t => t ≠ "")

/-- Model of `ProcessController._prepare_command`. The venv discovery
(an existence check on a path computed from the source tree) is passed
in as the oracle `venvExists` together with the interpreter path it
would yield. -/
def prepare_command (config : ProcessConfig) (venvExists : Bool) (venvPython : String) :
    PreparedCommand :=
  match config.type with
  | ProcType.python =>
      let script := basename config.command
      if venvExists then PreparedCommand.argv [venvPython, "-u", script]
      else PreparedCommand.argv ["python3", "-u", script]
  | ProcType.nodejs => PreparedCommand.argv ["node", config.command]
  | ProcType.shell => PreparedCommand.shellLine config.command
  | ProcType.docker => PreparedCommand.argv (["docker", "run"] ++ splitTokens config.command)
  | ProcType.custom => PreparedCommand.argv (splitTokens config.command)

/-- In-memory side of `ProcessController`: the durable store it talks to,
the ids holding a live `Popen` handle (`self.processes`), and the ids
with a restart-monitor thread (`self.restart_threads` and
`self.stop_events`). -/
structure ControllerState where
  store : Store
  handles : List String
  monitors : List String
deriving DecidableEq, Repr

/-- What the OS does while `stop_process` signals the child: whether the
terminate/kill/wait sequence raises, and the exception text if so. -/
structure ChildStopBehavior where
  raisesDuringStop : Bool
  raisedMessage : String
deriving DecidableEq, Repr

/-- Remove an id from an in-memory id list (`dict.pop(id, None)`). -/
def removeId (l : List String) (id : String) : List String :=
  l.filter (fun x => x ≠ id)

/-- Model of `ProcessController.stop_process`. Lookup failure returns
False; a record already in STOPPED/CRASHED/FAILED returns True after
dropping any residual handle; other non-RUNNING states return False;
a RUNNING record is moved to STOPPING, the child is signalled (OS
behaviour from the oracle), then on success the handle is dropped and
the record moved to STOPPED, while an exception moves it to FAILED. -/
def stop_process (cs : ControllerState) (id : String) (_force : Bool)
    (beh : ChildStopBehavior) (now : Nat) : Bool × ControllerState :=
  match get_process cs.store id with
  | none => (false, cs)
  | some info =>
      if info.state = ProcState.stopped ∨ info.state = ProcState.crashed ∨
          info.state = ProcState.failed then
        (true, { cs with handles := removeId cs.handles id })
      else if info.state ≠ ProcState.running then
        (false, cs)
      else
        let monitors := removeId cs.monitors id
        let store1 := update_state cs.store id ProcState.stopping none none now
        if beh.raisesDuringStop then
          (false, { store := update_state store1 id ProcState.failed none
                        (some beh.raisedMessage) now,
                    handles := cs.handles, monitors := monitors })
        else
          (true, { store := update_state store1 id ProcState.stopped none none now,
                   handles := removeId cs.handles id, monitors := monitors })

/-- Model of `ProcessMonitor._check_process`, called on a snapshot `info`
that was read as RUNNING. OS liveness (`psutil` existence and non-zombie
check) is the oracle `alive`. Metric collection and the HTTP health
probe mutate no registry state and are omitted. The source guards the
liveness check with Python truthiness on `process_info.pid`, so a record
whose snapshot pid is absent or zero skips the check entirely. -/
def check_process (store : Store) (info : ProcessRecord) (alive : Nat → Bool)
    (now : Nat) : Store :=
  match info.pid with
  | none => store
  | some p =>
      if p = 0 then store
      else if alive p then store
      else
        match get_process store info.id with
        | none => store
        | some cur =>
            if cur.state = ProcState.stopping ∨ cur.state = ProcState.stopped then store
            else update_state store info.id ProcState.crashed none (some "Process not found") now

/-- In-memory side of `HeartbeatManager`: the store plus the
`active_processes` set. -/
structure HeartbeatManagerState where
  store : Store
  active : List String
deriving DecidableEq, Repr

/-- Model of `HeartbeatManager.register_heartbeat`: reject unknown ids;
otherwise stamp `last_heartbeat`, remember the id as active, and promote
a STARTING record (as read before the stamp) to RUNNING. -/
def register_heartbeat (s : HeartbeatManagerState) (id : String) (now : Nat) :
    Bool × HeartbeatManagerState :=
  match get_process s.store id with
  | none => (false, s)
  | some info =>
      let store1 := update_heartbeat s.store id now
      let active1 := if s.active.contains id then s.active else s.active ++ [id]
      let store2 :=
        if info.state = ProcState.starting then
          update_state store1 id ProcState.running none none now
        else store1
      (true, { store := store2, active := active1 })

/-! Helper lemmas and sample data shared by the verification theorems. -/

/-- Full field-level characterization of the SET clause of `update_state`
on one row. -/
theorem applyUpdateState_fields (st : ProcState) (pidArg : Option Nat) (err : Option String)
    (now : Nat) (r : ProcessRecord) :
    applyUpdateState st pidArg err now r =
      { r with
        state := st
        updated_at := now
        pid :=
          if st = ProcState.stopped ∨ st = ProcState.failed ∨ st = ProcState.crashed then none
          else match pidArg with
               | some p => some p
               | none => r.pid
        started_at := if st = ProcState.running then some now else r.started_at
        stopped_at :=
          if st = ProcState.running then none
          else if st = ProcState.stopped ∨ st = ProcState.failed ∨ st = ProcState.crashed then
            some now
          else r.stopped_at
        error_message :=
          match err with
          | some e => if e ≠ "" then some e else r.error_message
          | none => r.error_message } := by
  cases st <;> cases pidArg <;> rcases err with _ | e <;> try rfl
  all_goals by_cases he : e = "" <;> simp [applyUpdateState, he]

/-- A sample configuration used by concrete witnesses and counterexamples. -/
def cfgA : ProcessConfig :=
  { name := "w"
    command := "run.py"
    type := ProcType.custom
    workdir := "/tmp"
    env := []
    ports := []
    restart_policy := "never"
    max_retries := 3
    health_check_endpoint := none
    health_check_interval := 30
    dependencies := [] }

/-! Claim theorems. -/

/-- C4: the restart decision table of the controller.
`should_restart` returns false for policy never, `attempt < max_retries`
for always, and `exit_code` nonzero together with `attempt < max_retries`
for on-failure and unless-stopped; for every policy it returns true only
when `attempt < max_retries`, hence with `max_retries = 0` it never
restarts. -/
theorem C4_should_restart_policy_table (policy : String) (exit_code : Int)
    (attempt max_retries : Nat) :
    should_restart "never" exit_code attempt max_retries = false ∧
    should_restart "always" exit_code attempt max_retries = decide (attempt < max_retries) ∧
    should_restart "on-failure" exit_code attempt max_retries
      = (decide (exit_code ≠ 0) && decide (attempt < max_retries)) ∧
    should_restart "unless-stopped" exit_code attempt max_retries
      = (decide (exit_code ≠ 0) && decide (attempt < max_retries)) ∧
    (should_restart policy exit_code attempt max_retries = true → attempt < max_retries) ∧
    (max_retries = 0 → should_restart policy exit_code attempt max_retries = false) := by
  refine ⟨by simp [should_restart], by simp [should_restart], by simp [should_restart],
    by simp [should_restart], ?_, ?_⟩
  · intro h
    unfold should_restart at h
    repeat' split at h
    all_goals simp_all
  · intro h0
    subst h0
    unfold should_restart
    repeat' split
    all_goals simp

/-- Witness for C4 at a concrete input: with policy always and
`max_retries = 0` there is no restart. -/
theorem C4_should_restart_policy_table_witness :
    should_restart "always" (0 : Int) 0 0 = false :=
  (C4_should_restart_policy_table "always" 0 0 0).2.2.2.2.2 rfl

/-- C9: command composition by process type. python yields the venv
interpreter when discoverable (else the system python3) with `-u` and the
basename of the command; nodejs yields node plus the command; shell
passes the command verbatim to a shell; docker yields docker run plus the
whitespace tokens of the command; custom yields the whitespace tokens of
the command; only the shell type is executed through a shell. -/
theorem C9_prepare_command_table (config : ProcessConfig) (venvExists : Bool)
    (venvPython : String) :
    prepare_command config venvExists venvPython =
      (match config.type with
       | ProcType.python =>
           PreparedCommand.argv
             [if venvExists then venvPython else "python3", "-u", basename config.command]
       | ProcType.nodejs => PreparedCommand.argv ["node", config.command]
       | ProcType.shell => PreparedCommand.shellLine config.command
       | ProcType.docker => PreparedCommand.argv ("docker" :: "run" :: splitTokens config.command)
       | ProcType.custom => PreparedCommand.argv (splitTokens config.command)) ∧
    (usesShell (prepare_command config venvExists venvPython) = true ↔
      config.type = ProcType.shell) := by
  cases hty : config.type <;> cases venvExists <;>
    simp [prepare_command, usesShell, hty]

/-- C5: update_state applies exactly the state-entry side effects on the
targeted row. It never touches id, name, config, restart_count,
last_heartbeat or created_at; entering RUNNING sets started_at to now and
clears stopped_at; entering STOPPED, FAILED or CRASHED sets stopped_at to
now and clears pid; and re-applying the identical transition leaves the
same state, pid and error_message as applying it once. -/
theorem C5_update_state_entry_effects (st : ProcState) (pidArg : Option Nat)
    (err : Option String) (now now2 : Nat) (r : ProcessRecord) :
    (applyUpdateState st pidArg err now r).id = r.id ∧
    (applyUpdateState st pidArg err now r).name = r.name ∧
    (applyUpdateState st pidArg err now r).config = r.config ∧
    (applyUpdateState st pidArg err now r).restart_count = r.restart_count ∧
    (applyUpdateState st pidArg err now r).last_heartbeat = r.last_heartbeat ∧
    (applyUpdateState st pidArg err now r).created_at = r.created_at ∧
    (st = ProcState.running →
      (applyUpdateState st pidArg err now r).started_at = some now ∧
      (applyUpdateState st pidArg err now r).stopped_at = none) ∧
    ((st = ProcState.stopped ∨ st = ProcState.failed ∨ st = ProcState.crashed) →
      (applyUpdateState st pidArg err now r).stopped_at = some now ∧
      (applyUpdateState st pidArg err now r).pid = none) ∧
    (applyUpdateState st pidArg err now2 (applyUpdateState st pidArg err now r)).state
      = (applyUpdateState st pidArg err now r).state ∧
    (applyUpdateState st pidArg err now2 (applyUpdateState st pidArg err now r)).pid
      = (applyUpdateState st pidArg err now r).pid ∧
    (applyUpdateState st pidArg err now2 (applyUpdateState st pidArg err now r)).error_message
      = (applyUpdateState st pidArg err now r).error_message := by
  refine ⟨?_, ?_, ?_, ?_, ?_, ?_, ?_, ?_, ?_, ?_, ?_⟩
  · simp [applyUpdateState_fields]
  · simp [applyUpdateState_fields]
  · simp [applyUpdateState_fields]
  · simp [applyUpdateState_fields]
  · simp [applyUpdateState_fields]
  · simp [applyUpdateState_fields]
  · intro h
    subst h
    simp [applyUpdateState_fields]
  · intro h
    rcases h with h | h | h <;> subst h <;> simp [applyUpdateState_fields]
  · simp [applyUpdateState_fields]
  · by_cases hT : st = ProcState.stopped ∨ st = ProcState.failed ∨ st = ProcState.crashed
    · simp [applyUpdateState_fields, hT]
    · cases pidArg <;> simp [applyUpdateState_fields, hT]
  · rcases err with _ | e
    · simp [applyUpdateState_fields]
    · by_cases he : e = "" <;> simp [applyUpdateState_fields, he]

/-- Witness for C5 at a concrete input: entering CRASHED clears the pid. -/
theorem C5_update_state_entry_effects_witness :
    (applyUpdateState ProcState.crashed none none 9
      { freshRecord "p" cfgA 0 with state := ProcState.running, pid := some 4 }).pid = none :=
  ((C5_update_state_entry_effects ProcState.crashed none none 9 9
      { freshRecord "p" cfgA 0 with state := ProcState.running, pid := some 4
        }).2.2.2.2.2.2.2.1 (Or.inr (Or.inr rfl))).2

/-- C6: register fails with a name-conflict error and inserts nothing when
the name already exists, and otherwise appends exactly one fresh record in
state REGISTERED with restart_count 0 and pid, timestamps, heartbeat and
error all unset, returning the minted id name-underscore-timestamp; the
timestamp format is compact year month day, underscore, hour minute
second, as the concrete sample shows. -/
theorem C6_register_spec (store : Store) (config : ProcessConfig) (now : Timestamp6)
    (nowEpoch : Nat) :
    register store config now nowEpoch =
      (if ∃ r ∈ store, r.name = config.name then
        Except.error (RegError.nameConflict config.name)
      else
        Except.ok
          (store ++
            [{ id := config.name ++ "_" ++ fmtCompact now
               name := config.name
               config := config
               state := ProcState.registered
               pid := none
               started_at := none
               stopped_at := none
               restart_count := 0
               last_heartbeat := none
               error_message := none
               created_at := nowEpoch
               updated_at := nowEpoch }],
            config.name ++ "_" ++ fmtCompact now)) ∧
    fmtCompact ⟨2025, 3, 4, 5, 6, 7⟩ = "20250304_050607" := by
  constructor
  · by_cases h : ∃ r ∈ store, r.name = config.name
    · simp [register, List.any_eq_true, h]
    · simp [register, List.any_eq_true, h, freshRecord]
  · rfl

/-- C10: a heartbeat for an unknown id returns failure and mutates nothing;
for a known record it succeeds, stamps only last_heartbeat when the state
is anything other than STARTING (never resurrecting a terminal record),
and transitions exactly a STARTING record to RUNNING. -/
theorem C10_register_heartbeat_frame (s : HeartbeatManagerState) (id : String) (now : Nat) :
    (get_process s.store id = none → register_heartbeat s id now = (false, s)) ∧
    (∀ info, get_process s.store id = some info →
      (register_heartbeat s id now).1 = true ∧
      ∀ j : Nat, ((register_heartbeat s id now).2.store)[j]? =
        (s.store[j]?).map (fun r =>
          if r.id = id then
            if info.state = ProcState.starting then
              { r with
                state := ProcState.running
                last_heartbeat := some now
                started_at := some now
                stopped_at := none
                updated_at := now }
            else { r with last_heartbeat := some now }
          else r)) := by
  constructor
  · intro h
    simp [register_heartbeat, h]
  · intro info h
    by_cases hst : info.state = ProcState.starting
    · refine ⟨by simp [register_heartbeat, h], ?_⟩
      intro j
      have hrw : (register_heartbeat s id now).2.store =
          List.map
            ((fun r =>
                if r.id = id then applyUpdateState ProcState.running none none now r else r) ∘
              (fun r => if r.id = id then { r with last_heartbeat := some now } else r))
            s.store := by
        simp [register_heartbeat, h, hst, update_state, update_heartbeat, List.map_map]
      rw [hrw, List.getElem?_map]
      cases hsj : s.store[j]? with
      | none => rfl
      | some r =>
          by_cases hid : r.id = id
          · simp [hid, applyUpdateState_fields, hst]
          · simp [hid]
    · refine ⟨by simp [register_heartbeat, h], ?_⟩
      intro j
      have hrw : (register_heartbeat s id now).2.store =
          List.map (fun r => if r.id = id then { r with last_heartbeat := some now } else r)
            s.store := by
        simp [register_heartbeat, h, hst, update_heartbeat]
      rw [hrw, List.getElem?_map]
      cases hsj : s.store[j]? with
      | none => rfl
      | some r =>
          by_cases hid : r.id = id
          · simp [hid, hst]
          · simp [hid]

/-- Witness for C10 at a concrete input: a heartbeat for an unknown id on an
empty store fails and changes nothing. -/
theorem C10_register_heartbeat_frame_witness :
    register_heartbeat ⟨[], []⟩ "x" 5 = (false, ⟨[], []⟩) :=
  (C10_register_heartbeat_frame ⟨[], []⟩ "x" 5).1 rfl

/-- C7: stop_process on a record already in STOPPED, FAILED or CRASHED
returns success, drops any residual in-memory child handle for that id,
and leaves the durable store (and the monitor threads) unchanged. -/
theorem C7_stop_already_stopped (cs : ControllerState) (id : String) (force : Bool)
    (beh : ChildStopBehavior) (now : Nat) (r : ProcessRecord)
    (hget : get_process cs.store id = some r)
    (hterm : r.state = ProcState.stopped ∨ r.state = ProcState.failed ∨
      r.state = ProcState.crashed) :
    stop_process cs id force beh now = (true, { cs with handles := removeId cs.handles id }) := by
  rcases hterm with h | h | h <;> simp [stop_process, hget, h]

/-- A store whose only record is already STOPPED, with a residual handle,
for the C7 witness. -/
def csStopped : ControllerState :=
  { store := [{ freshRecord "p1" cfgA 0 with state := ProcState.stopped }]
    handles := ["p1"]
    monitors := [] }

/-- Witness for C7 at a concrete input: stopping an already STOPPED record
succeeds, clears the handle and leaves the store as it was. -/
theorem C7_stop_already_stopped_witness :
    stop_process csStopped "p1" false ⟨false, ""⟩ 5 = (true, { csStopped with handles := [] }) := by
  have h := C7_stop_already_stopped csStopped "p1" false ⟨false, ""⟩ 5
    { freshRecord "p1" cfgA 0 with state := ProcState.stopped } rfl (Or.inl rfl)
  rw [h]
  rfl

/-- A STOPPED record used by the C1 and C2 analyses. -/
def recStopped : ProcessRecord :=
  { freshRecord "p1" cfgA 0 with state := ProcState.stopped, stopped_at := some 50 }

/-- C1 counterexample: the registry has no legal-transition table at all.
The illegal transition STOPPED to RUNNING named by the claim is not
rejected: update_state applies it, mutating state, pid and started_at. -/
theorem C1_counterexample :
    recStopped.state = ProcState.stopped ∧
    (get_process (update_state [recStopped] "p1" ProcState.running (some 7) none 60) "p1").map
        (fun r => (r.state, r.pid, r.started_at)) =
      some (ProcState.running, some 7, some 60) := ⟨rfl, rfl⟩

/-- C1 amended: update_state performs no transition validation. For every
store and every existing record, whatever the old state, the requested
state is unconditionally written. -/
theorem C1_update_state_unchecked (store : Store) (id : String) (st : ProcState)
    (pidArg : Option Nat) (err : Option String) (now : Nat)
    (h : (get_process store id).isSome) :
    (get_process (update_state store id st pidArg err now) id).map (fun r => r.state) =
      some st := by
  induction store with
  | nil => simp [get_process] at h
  | cons r tl ih =>
      by_cases hid : r.id = id
      · simp [update_state, get_process, hid, applyUpdateState_fields]
      · have h2 : (get_process tl id).isSome := by
          simpa [get_process, hid] using h
        simpa [update_state, get_process, hid] using ih h2

/-- Witness for C1 amended at a concrete input. -/
theorem C1_update_state_unchecked_witness :
    (get_process (update_state [recStopped] "p1" ProcState.running (some 7) none 60) "p1").map
        (fun r => r.state) = some ProcState.running :=
  C1_update_state_unchecked [recStopped] "p1" ProcState.running (some 7) none 60 rfl

/-- Store obtained by registering the sample config at time
2025-01-01 00:00:00, used by the C2 counterexample. -/
def c2Store0 : Store :=
  match register [] cfgA ⟨2025, 1, 1, 0, 0, 0⟩ 0 with
  | Except.ok (s, _) => s
  | Except.error _ => []

/-- The id minted by that registration. -/
def c2Id : String := "w_20250101_000000"

/-- Registered record driven to RUNNING with pid 5, a heartbeat at time 2,
then aged out by cleanup at time 100 with timeout 10. -/
def c2StoreMid : Store :=
  update_heartbeat (update_state c2Store0 c2Id ProcState.running (some 5) none 1) c2Id 2

/-- Final store of the C2 counterexample scenario. -/
def c2StoreFinal : Store :=
  cleanup_stale_processes c2StoreMid 10 100

/-- C2 counterexample: a sequence of real registry operations (register,
update_state to RUNNING with pid 5, update_heartbeat, cleanup_stale)
yields a record in CRASHED whose pid is still 5 - cleanup_stale moves a
RUNNING record into CRASHED without clearing the pid, so the claimed
equivalence of RUNNING and pid-set fails. -/
theorem C2_counterexample :
    (get_process c2StoreMid c2Id).map (fun r => (r.state, r.pid)) =
      some (ProcState.running, some 5) ∧
    (get_process c2StoreFinal c2Id).map (fun r => (r.state, r.pid)) =
      some (ProcState.crashed, some 5) := ⟨rfl, rfl⟩

/-- C2 amended: the pid discipline holds for transitions performed through
update_state (entering STOPPED, FAILED or CRASHED clears pid, and entering
RUNNING with a supplied pid sets it), but cleanup_stale never touches pid,
so a record it crashes keeps its pid and the global RUNNING-iff-pid-set
equivalence does not hold across all operations. -/
theorem C2_pid_discipline (st : ProcState) (pidArg : Option Nat) (err : Option String)
    (now : Nat) (r : ProcessRecord) (p : Nat) (store : Store) (timeout tnow j : Nat) :
    ((st = ProcState.stopped ∨ st = ProcState.failed ∨ st = ProcState.crashed) →
      (applyUpdateState st pidArg err now r).pid = none) ∧
    (applyUpdateState ProcState.running (some p) err now r).pid = some p ∧
    ((cleanup_stale_processes store timeout tnow)[j]?).map (fun q => q.pid) =
      (store[j]?).map (fun q => q.pid) := by
  refine ⟨?_, ?_, ?_⟩
  · intro h
    rw [applyUpdateState_fields]
    simp [h]
  · rw [applyUpdateState_fields]
    simp
  · simp only [cleanup_stale_processes, List.getElem?_map]
    cases store[j]? with
    | none => rfl
    | some q =>
        by_cases hq : staleCond timeout tnow q = true
        · simp [hq]
        · simp [hq]

/-- Witness for C2 amended at a concrete input: an update_state into
CRASHED clears the pid. -/
theorem C2_pid_discipline_witness :
    (applyUpdateState ProcState.crashed none none 3 recStopped).pid = none :=
  (C2_pid_discipline ProcState.crashed none none 3 recStopped 0 [] 0 0 0).1
    (Or.inr (Or.inr rfl))

/-- A RUNNING record that never recorded any heartbeat. -/
def recNoHb : ProcessRecord :=
  { freshRecord "h1" cfgA 0 with state := ProcState.running, pid := some 11 }

/-- A RUNNING record whose last heartbeat is long in the past. -/
def recOldHb : ProcessRecord :=
  { freshRecord "h2" cfgA 0 with
    state := ProcState.running
    pid := some 12
    last_heartbeat := some 0 }

/-- C3 counterexample: with timeout 10 at time 100, cleanup_stale leaves a
RUNNING record that never sent a heartbeat untouched (the claim says it is
included in the crash set), and the error message written on the stale
record is Process heartbeat timeout, not heartbeat timeout. -/
theorem C3_counterexample :
    cleanup_stale_processes [recNoHb, recOldHb] 10 100 =
      [recNoHb,
        { recOldHb with
          state := ProcState.crashed
          error_message := some "Process heartbeat timeout" }] ∧
    recNoHb.state = ProcState.running ∧
    recNoHb.last_heartbeat = none ∧
    "Process heartbeat timeout" ≠ "heartbeat timeout" := by
  refine ⟨rfl, rfl, rfl, by decide⟩

/-- C3 amended: cleanup_stale transitions exactly the RUNNING records that
have a recorded last_heartbeat with now minus last_heartbeat greater than
the timeout, setting only state (to CRASHED) and error_message (to
Process heartbeat timeout); every other record, including a RUNNING record
with no heartbeat at all, is left completely unchanged, and no record is
added or removed. -/
theorem C3_cleanup_stale_exact (store : Store) (timeout now j : Nat) (r : ProcessRecord)
    (hj : store[j]? = some r) :
    ((r.state = ProcState.running ∧ ∃ hb, r.last_heartbeat = some hb ∧ now - hb > timeout) →
      (cleanup_stale_processes store timeout now)[j]? =
        some { r with
               state := ProcState.crashed
               error_message := some "Process heartbeat timeout" }) ∧
    (¬ (r.state = ProcState.running ∧ ∃ hb, r.last_heartbeat = some hb ∧ now - hb > timeout) →
      (cleanup_stale_processes store timeout now)[j]? = some r) ∧
    (cleanup_stale_processes store timeout now).length = store.length := by
  refine ⟨?_, ?_, by simp [cleanup_stale_processes]⟩
  · rintro ⟨hrun, hb, hhb, hgt⟩
    have hc : staleCond timeout now r = true := by
      simp only [staleCond, hrun, hhb]
      simp
      omega
    simp only [cleanup_stale_processes, List.getElem?_map, hj, Option.map_some]
    simp [hc]
  · intro hn
    have hc : staleCond timeout now r = false := by
      rcases hlh : r.last_heartbeat with _ | hb
      · simp [staleCond, hlh]
      · by_cases hrun : r.state = ProcState.running
        · have hng : ¬ (now - hb > timeout) := fun hgt => hn ⟨hrun, hb, hlh, hgt⟩
          simp only [staleCond, hrun, hlh]
          simp
          omega
        · simp [staleCond, hrun]
    simp only [cleanup_stale_processes, List.getElem?_map, hj, Option.map_some]
    simp [hc]

/-- Witness for C3 amended at a concrete input: the never-heartbeat RUNNING
record is left unchanged by cleanup_stale. -/
theorem C3_cleanup_stale_exact_witness :
    (cleanup_stale_processes [recNoHb] 10 100)[0]? = some recNoHb := by
  have h := C3_cleanup_stale_exact [recNoHb] 10 100 0 recNoHb rfl
  refine h.2.1 ?_
  rintro ⟨-, hb, hlh, -⟩
  simp [recNoHb, freshRecord] at hlh

/-- The current store row for the C8 scenario: the monitor snapshot said
RUNNING with pid 9, but the record has meanwhile moved to FAILED. -/
def recFailedCur : ProcessRecord :=
  { freshRecord "m1" cfgA 0 with state := ProcState.failed, stopped_at := some 80 }

/-- The stale RUNNING snapshot the monitor tick is working from. -/
def recRunningSnap : ProcessRecord :=
  { freshRecord "m1" cfgA 0 with state := ProcState.running, pid := some 9 }

/-- C8 counterexample: the monitor re-reads the record and finds FAILED,
which is not RUNNING, yet it still overwrites the record with CRASHED -
the guard only protects STOPPING and STOPPED. -/
theorem C8_counterexample :
    recFailedCur.state = ProcState.failed ∧
    (get_process (check_process [recFailedCur] recRunningSnap (fun _ => false) 90) "m1").map
        (fun r => (r.state, r.error_message)) =
      some (ProcState.crashed, some "Process not found") := ⟨rfl, rfl⟩

/-- C8 amended: when the snapshot pid is nonzero (a zero or absent pid is
skipped by the truthy guard) and dead, the monitor transitions the
re-read record to CRASHED with error message Process not found whenever
its state is neither STOPPING nor STOPPED (so FAILED, CRASHED, REGISTERED
and STARTING are overwritten too), and leaves the store untouched exactly
when the re-read state is STOPPING or STOPPED. -/
theorem C8_monitor_overwrite_guard (store : Store) (info : ProcessRecord)
    (alive : Nat → Bool) (now : Nat) (p : Nat) (cur : ProcessRecord)
    (hpid : info.pid = some p) (hp : p ≠ 0) (hdead : alive p = false)
    (hcur : get_process store info.id = some cur) :
    (cur.state ≠ ProcState.stopping ∧ cur.state ≠ ProcState.stopped →
      check_process store info alive now =
        update_state store info.id ProcState.crashed none (some "Process not found") now) ∧
    (cur.state = ProcState.stopping ∨ cur.state = ProcState.stopped →
      check_process store info alive now = store) := by
  constructor
  · rintro ⟨h1, h2⟩
    simp [check_process, hpid, hp, hdead, hcur, h1, h2]
  · intro h
    rcases h with h | h <;> simp [check_process, hpid, hp, hdead, hcur, h]

/-- Witness for C8 amended at a concrete input: the FAILED record is
overwritten with CRASHED. -/
theorem C8_monitor_overwrite_guard_witness :
    check_process [recFailedCur] recRunningSnap (fun _ => false) 90 =
      update_state [recFailedCur] recRunningSnap.id ProcState.crashed none
        (some "Process not found") 90 := by
  have h := C8_monitor_overwrite_guard [recFailedCur] recRunningSnap (fun _ => false) 90 9
    recFailedCur rfl (by decide) rfl rfl
  exact h.1 ⟨by decide, by decide⟩

end LabHeartbeat
